import Mathlib

/-!
Shallow embedding of the ArtMentorAI critique pipeline
(`endpoints/analysis.py`, `services/agent_service.py`,
`services/vector_service.py`, `models/responses/analysis_response.py`,
`config/upload_config.py`) and proofs about its validation, orchestration
and storage behaviour.

External collaborators (the hosted Gemini model, the Qdrant client, the
FastEmbed embedding model, Python's string hash) are abstracted as
function parameters; the repository's own control flow is translated
statement by statement.
-/

namespace ArtMentor

/-! ### Python exception model

Only the exception classes that appear in the repository's `raise` and
`except` clauses are modelled.  `describe` plays the role of `str(e)`. -/

inductive PyExc where
  | connectionError (msg : String)
  | timeoutError (msg : String)
  | osError (msg : String)
  | runtimeError (msg : String)
  | typeError (msg : String)
  | attributeError (msg : String)
  | valueError (msg : String)
  | validationError (msg : String)
  | responseHandlingException (msg : String)
  | unexpectedResponse (msg : String)
  | httpException (statusCode : Nat) (detail : String)
deriving Repr, DecidableEq

def PyExc.describe : PyExc → String
  | .connectionError m => m
  | .timeoutError m => m
  | .osError m => m
  | .runtimeError m => m
  | .typeError m => m
  | .attributeError m => m
  | .valueError m => m
  | .validationError m => m
  | .responseHandlingException m => m
  | .unexpectedResponse m => m
  | .httpException _ d => d

def PyExc.isHTTP : PyExc → Bool
  | .httpException _ _ => true
  | _ => false

/-- The endpoint's `except (ConnectionError, TimeoutError, OSError)` clause
(`analysis.py` line 214): which exceptions it catches. -/
def caught_by_storage_handler : PyExc → Bool
  | .connectionError _ => true
  | .timeoutError _ => true
  | .osError _ => true
  | _ => false

/-! ### Upload configuration (`config/upload_config.py`) -/

structure UploadConfig where
  max_file_size_mb : Nat
  allowed_extensions : List String
  allowed_mime_types : List String
deriving Repr, DecidableEq

/-- The field defaults of `UploadConfig` (`upload_config.py` lines 15-24). -/
def defaultUploadConfig : UploadConfig :=
  { max_file_size_mb := 10
    allowed_extensions := [".jpg", ".jpeg", ".png", ".gif", ".webp", ".bmp"]
    allowed_mime_types :=
      ["image/jpeg", "image/png", "image/gif", "image/webp", "image/bmp"] }

/-- `', '.join(xs)` -/
def joinComma (xs : List String) : String := String.intercalate ", " xs

/-! ### `pathlib.Path(filename).suffix` and `.lower()` -/

/-- `Path(filename).name`: the component after the last `/`. -/
def pyName (filename : String) : String :=
  String.mk (((filename.toList.reverse).takeWhile (fun c => c ≠ '/')).reverse)

/-- `name.rfind('.')`: index of the last dot, `none` when absent. -/
def pyRFindDot (cs : List Char) : Option Nat :=
  ((List.range cs.length).reverse).find? (fun i => cs.getD i ' ' == '.')

/-- `PurePath.suffix`: `name[i:]` when `0 < i < len(name) - 1` for the last
dot index `i`, else the empty string. -/
def pySuffix (filename : String) : String :=
  let cs := (pyName filename).toList
  match pyRFindDot cs with
  | none => ""
  | some i => if 0 < i ∧ i + 1 < cs.length then String.mk (cs.drop i) else ""

/-- `str.lower()` (ASCII case folding suffices for the extension strings the
code compares). -/
def pyLower (s : String) : String := String.mk (s.toList.map Char.toLower)

/-! ### `_validate_image_file` (`analysis.py` lines 44-80) -/

def validate_image_file (filename : String) (content_type : Option String)
    (cfg : UploadConfig) : Except PyExc (String × String) :=
  let file_extension := pyLower (pySuffix filename)
  let actual_mime := content_type.getD "image/jpeg"
  if file_extension ∉ cfg.allowed_extensions then
    .error (.httpException 400
      ("Extension not allowed. Use: " ++ joinComma cfg.allowed_extensions))
  else if actual_mime ∉ cfg.allowed_mime_types then
    .error (.httpException 400
      ("MIME type not allowed. Use: " ++ joinComma cfg.allowed_mime_types))
  else
    .ok (file_extension, actual_mime)

/-! ### `_validate_file_size` (`analysis.py` lines 83-108)

File content is modelled as its byte sequence; only the length is
inspected, exactly as in the source. -/

def validate_file_size (content : List Nat) (max_file_size_mb : Nat) :
    Except PyExc Unit :=
  let max_size := max_file_size_mb * 1024 * 1024
  if content.length > max_size then
    .error (.httpException 413
      ("File too large (max " ++ toString max_file_size_mb ++ "MB)"))
  else if content.length = 0 then
    .error (.httpException 400 "File is empty")
  else
    .ok ()

/-! ### `AnalysisResponse` (`models/responses/analysis_response.py`) -/

structure AnalysisResponse where
  summary : String
  score : Int
  technical_errors : List String
  constructive_advice : String
deriving Repr, DecidableEq

/-- Pydantic validation of `AnalysisResponse`: `summary` 10-500 chars,
`score` an integer in [1,10], `technical_errors` 0-10 entries,
`constructive_advice` 20-500 chars.  A field out of bounds raises
`ValidationError`; nothing is clamped. -/
def mkAnalysisResponse (summary : String) (score : Int)
    (technical_errors : List String) (constructive_advice : String) :
    Except PyExc AnalysisResponse :=
  if summary.length < 10 ∨ 500 < summary.length then
    .error (.validationError "summary: length out of range 10..500")
  else if score < 1 ∨ 10 < score then
    .error (.validationError "score: not in range 1..10")
  else if 10 < technical_errors.length then
    .error (.validationError "technical_errors: more than 10 items")
  else if constructive_advice.length < 20 ∨ 500 < constructive_advice.length then
    .error (.validationError "constructive_advice: length out of range 20..500")
  else
    .ok ⟨summary, score, technical_errors, constructive_advice⟩

/-! ### `AgentService.analyze_image` (`agent_service.py` lines 55-118)

The hosted model call is external; its outcome is a parameter.  The
method validates the model's data against `AnalysisResponse` and wraps
every failure as `ValueError('Gemini image analysis error: ' + str(e))`. -/

inductive ModelOutcome where
  | failure (e : PyExc)
  | structured (r : AnalysisResponse)
  | rawDict (summary : String) (score : Int) (technical_errors : List String)
      (constructive_advice : String)
deriving Repr, DecidableEq

def analyze_image (modelResult : ModelOutcome) : Except PyExc AnalysisResponse :=
  match modelResult with
  | .failure e =>
      .error (.valueError ("Gemini image analysis error: " ++ e.describe))
  | .structured r => .ok r
  | .rawDict s sc te adv =>
      match mkAnalysisResponse s sc te adv with
      | .ok r => .ok r
      | .error e =>
          .error (.valueError ("Gemini image analysis error: " ++ e.describe))

/-- The parameters `AgentService.analyze_image` accepts besides `self`
(`agent_service.py` lines 55-59). -/
def analyze_image_params : List String := ["image_bytes", "mime_type"]

/-- The keyword arguments the endpoint passes at the call site
(`analysis.py` lines 189-193). -/
def endpoint_gen_kwargs : List String := ["image_bytes", "mime_type", "user_text"]

/-- Outcome of the expression `await agent_service.analyze_image(...)`:
either Python's keyword binding failed before the body ran, or the body
was entered and produced `result`. -/
inductive GenCall where
  | bindingError (e : PyExc)
  | invoked (result : Except PyExc AnalysisResponse)
deriving Repr

def GenCall.entered : GenCall → Bool
  | .bindingError _ => false
  | .invoked _ => true

def GenCall.outcome : GenCall → Except PyExc AnalysisResponse
  | .bindingError e => .error e
  | .invoked r => r

/-- Python keyword binding: a keyword argument outside the callee's
parameter list raises `TypeError` and the body is never entered. -/
def call_with_kwargs (params : List String) (kwargs : List String)
    (body : Except PyExc AnalysisResponse) : GenCall :=
  match kwargs.find? (fun k => !(params.contains k)) with
  | some k =>
      .bindingError (.typeError
        ("analyze_image() got an unexpected keyword argument " ++ k))
  | none => .invoked body

/-! ### `ArtCritique` and `VectorService` (`services/vector_service.py`)

The FastEmbed model is a parameter `embedFn` returning, like
`FlagEmbedding.embed`, a generator of numpy arrays (modelled as a list of
`NdArray`); Python's built-in string hash, fixed for the life of the
process, is a parameter `hashFn`; the Qdrant collection is a list of
points and `upsert` replaces the point with the same id. -/

structure NdArray where
  data : List Int
deriving Repr, DecidableEq

/-- `ndarray.tolist()` -/
def NdArray.tolist (a : NdArray) : List Int := a.data

/-- Calling `.tolist()` on the generator object returned by
`embedding_model.embed(...)` itself (as `search_similar_critiques` does at
`vector_service.py` line 273, without the `list(...)` wrapping that
`save_critique` uses at line 211): generator objects have no `tolist`
attribute, so the attribute lookup raises `AttributeError`. -/
def generator_tolist (_g : List NdArray) : Except PyExc (List Int) :=
  .error (.attributeError "generator object has no attribute tolist")

structure ArtCritique where
  summary : String
  score : Int
  technical_errors : List String
  constructive_advice : String
  timestamp : String
deriving Repr, DecidableEq

/-- `ArtCritique.__init__` with the `datetime.now(tz=UTC).isoformat()`
timestamp passed in as `now`. -/
def ArtCritique.fromAnalysisResponse (r : AnalysisResponse) (now : String) :
    ArtCritique :=
  ⟨r.summary, r.score, r.technical_errors, r.constructive_advice, now⟩

/-- `get_text_for_embedding`: `f'{summary} {errors_text}'` with
`errors_text = ' '.join(technical_errors)`. -/
def ArtCritique.get_text_for_embedding (c : ArtCritique) : String :=
  c.summary ++ " " ++ String.intercalate " " c.technical_errors

structure Payload where
  filename : String
  score : Int
  summary : String
  advice : String
  timestamp : String
deriving Repr, DecidableEq

structure Point where
  id : Nat
  vector : List Int
  payload : Payload
deriving Repr, DecidableEq

/-- Qdrant `upsert`: the point with the same id is replaced. -/
def upsert (st : List Point) (p : Point) : List Point :=
  st.filter (fun q => q.id ≠ p.id) ++ [p]

/-- `hash(filename) % (10**8)` (`vector_service.py` line 215); Python's `%`
on a positive modulus is non-negative, matching `Int.emod`. -/
def point_id_of (hashFn : String → Int) (filename : String) : Nat :=
  (hashFn filename % (10 ^ 8 : Int)).toNat

/-- The payload dict built in `save_critique` (lines 217-223). -/
def payload_of (critique : ArtCritique) (filename : String) : Payload :=
  ⟨filename, critique.score, critique.summary, critique.constructive_advice,
    critique.timestamp⟩

/-- `VectorService.save_critique` (lines 182-252).  `_validate_critique`
only checks `isinstance` facts that the typed embedding makes true, so it
always passes here.  `upsertOutcome` is the Qdrant client call's outcome;
the `except` ladder re-raises `TypeError`, wraps
`ResponseHandlingException`/`UnexpectedResponse` as
`RuntimeError('Failed to save critique to Qdrant: ...')`, and wraps any
other exception as `RuntimeError('Unexpected error in save_critique: ...')`. -/
def save_critique (embedFn : String → List NdArray) (hashFn : String → Int)
    (upsertOutcome : Except PyExc Unit) (st : List Point)
    (critique : ArtCritique) (filename : String) :
    Except PyExc (List Point × String) :=
  let text_for_embedding := critique.get_text_for_embedding
  let embeddings_list := embedFn text_for_embedding
  match embeddings_list.head? with
  | none =>
      .error (.runtimeError
        "Unexpected error in save_critique: list index out of range")
  | some emb =>
      let embedding_vector := emb.tolist
      let point_id := point_id_of hashFn filename
      let payload := payload_of critique filename
      match upsertOutcome with
      | .ok _ =>
          .ok (upsert st ⟨point_id, embedding_vector, payload⟩,
            toString point_id)
      | .error (.typeError m) => .error (.typeError m)
      | .error (.responseHandlingException m) =>
          .error (.runtimeError ("Failed to save critique to Qdrant: " ++ m))
      | .error (.unexpectedResponse m) =>
          .error (.runtimeError ("Failed to save critique to Qdrant: " ++ m))
      | .error e =>
          .error (.runtimeError
            ("Unexpected error in save_critique: " ++ e.describe))

/-- A Qdrant scored search hit. -/
structure ScoredPoint where
  similarity : Int
  payload : Payload
deriving Repr, DecidableEq

structure SearchResult where
  similarity_score : Int
  filename : String
  score : Int
  summary : String
  advice : String
  timestamp : String
deriving Repr, DecidableEq

/-- The result-formatting comprehension of `search_similar_critiques`
(lines 283-293). -/
def format_results (hits : List ScoredPoint) : List SearchResult :=
  hits.map (fun h =>
    ⟨h.similarity, h.payload.filename, h.payload.score, h.payload.summary,
      h.payload.advice, h.payload.timestamp⟩)

/-- `VectorService.search_similar_critiques` (lines 254-302).  The body
computes `query_embedding = self.embedding_model.embed(query_text).tolist()`
and only then searches Qdrant (abstracted as `searchFn`); the `except`
clause catches only `ResponseHandlingException` and `UnexpectedResponse`,
wrapping them as `RuntimeError`. -/
def search_similar_critiques (embedFn : String → List NdArray)
    (searchFn : List Int → Nat → List ScoredPoint)
    (query_text : String) (limit : Nat) : Except PyExc (List SearchResult) :=
  match generator_tolist (embedFn query_text) with
  | .ok query_embedding => .ok (format_results (searchFn query_embedding limit))
  | .error (.responseHandlingException m) =>
      .error (.runtimeError ("Failed to search critiques: " ++ m))
  | .error (.unexpectedResponse m) =>
      .error (.runtimeError ("Failed to search critiques: " ++ m))
  | .error e => .error e

/-- The endpoint's storage call: `save_critique` projected to the returned
point-id string, as the value the endpoint receives. -/
def storage_call (embedFn : String → List NdArray) (hashFn : String → Int)
    (upsertOutcome : Except PyExc Unit) (st : List Point)
    (critique : ArtCritique) (filename : String) : Except PyExc String :=
  (save_critique embedFn hashFn upsertOutcome st critique filename).map
    (fun p => p.2)

/-! ### The `POST /analysis/critique` handler (`analysis.py` lines 141-233)

The handler is a pure trace function: besides the HTTP outcome it records
whether `file.read()` ran, whether the generator body was entered, whether
the storage client was invoked and with which filename, and the warnings
logged by the storage `except` clause. -/

structure UploadedFile where
  filename : Option String
  content_type : Option String
  content : List Nat
deriving Repr, DecidableEq

inductive HandlerOutcome where
  | returned (body : Option AnalysisResponse)
  | raised (e : PyExc)
deriving Repr, DecidableEq

structure HandlerTrace where
  outcome : HandlerOutcome
  fileRead : Bool
  generatorEntered : Bool
  storageInvoked : Bool
  storageFilename : Option String
  warningsLogged : List String
deriving Repr, DecidableEq

/-- The outer `except HTTPException: raise / except Exception as e:`
ladder (lines 226-233): an `HTTPException` is re-raised unchanged, any
other exception becomes
`HTTPException(500, 'Error analyzing image: ' + str(e))`. -/
def wrap_outer (e : PyExc) : HandlerOutcome :=
  if e.isHTTP then .raised e
  else .raised (.httpException 500 ("Error analyzing image: " ++ e.describe))

/-- `critique_artwork`, statement by statement: validate extension and
MIME type (with `file.filename or 'unknown'`), read the content, validate
the size, call `analyze_image` (the call expression `genCall`), then run
the storage block: on storage success the `else:` clause returns the
result; a caught `(ConnectionError, TimeoutError, OSError)` logs a warning
and falls off the function body (Python returns `None`); any other storage
exception propagates to the outer ladder. -/
def critique_artwork (cfg : UploadConfig) (file : UploadedFile)
    (genCall : GenCall) (stor : String → Except PyExc String) : HandlerTrace :=
  match validate_image_file (file.filename.getD "unknown") file.content_type cfg with
  | .error e => ⟨wrap_outer e, false, false, false, none, []⟩
  | .ok _ =>
    match validate_file_size file.content cfg.max_file_size_mb with
    | .error e => ⟨wrap_outer e, true, false, false, none, []⟩
    | .ok _ =>
      match genCall.outcome with
      | .error e => ⟨wrap_outer e, true, genCall.entered, false, none, []⟩
      | .ok result =>
        let filename := file.filename.getD "unknown"
        match stor filename with
        | .ok _ =>
            ⟨.returned (some result), true, true, true, some filename, []⟩
        | .error e =>
            if caught_by_storage_handler e then
              ⟨.returned none, true, true, true, some filename,
                ["Failed to store critique in vector database: "
                  ++ e.describe ++ ". Continuing with analysis response."]⟩
            else ⟨wrap_outer e, true, true, true, some filename, []⟩

/-- The handler as wired in the repository: the generator call passes the
keyword arguments `image_bytes`, `mime_type` and `user_text`
(`analysis.py` lines 189-193) to `AgentService.analyze_image`, whose
parameter list is `image_bytes, mime_type` (`agent_service.py` lines
55-59). -/
def critique_artwork_endpoint (cfg : UploadConfig) (file : UploadedFile)
    (genBody : Except PyExc AnalysisResponse)
    (stor : String → Except PyExc String) : HandlerTrace :=
  critique_artwork cfg file
    (call_with_kwargs analyze_image_params endpoint_gen_kwargs genBody) stor

/-! ### Sample data used by concrete theorems and witnesses -/

/-- A critique whose fields satisfy every `AnalysisResponse` bound. -/
def sampleResponse : AnalysisResponse :=
  ⟨"A solid landscape study with confident values.", 7,
    ["Horizon line drifts to the left"],
    "Practice one-point perspective studies with a ruler before the next piece."⟩

def sampleCritique1 : ArtCritique :=
  ⟨"First pass: stiff gesture but clean linework.", 5,
    ["Gesture is stiff"],
    "Warm up with two-minute gesture drawings before each session.",
    "2026-10-12T10:00:00+00:00"⟩

def sampleCritique2 : ArtCritique :=
  ⟨"Second pass: gesture is looser, values muddier.", 6,
    ["Values are muddy"],
    "Squint at the reference and group your values into three families.",
    "2026-10-12T11:00:00+00:00"⟩

/-! ### Theorems -/

/-- C5: a file whose case-insensitive extension is outside the configured
allow-set is rejected with HTTP 400 naming the allowed set, and a file
with an allowed extension but a declared MIME type (defaulting to
image/jpeg when absent) outside the MIME allow-set is likewise rejected
with HTTP 400 naming that set; in both cases the trace shows the content
was never read and the generator was never invoked. -/
theorem c5_invalid_extension_or_mime_rejected
    (cfg : UploadConfig) (file : UploadedFile) (genCall : GenCall)
    (stor : String → Except PyExc String) :
    (pyLower (pySuffix (file.filename.getD "unknown")) ∉ cfg.allowed_extensions →
      critique_artwork cfg file genCall stor =
        ⟨.raised (.httpException 400
            ("Extension not allowed. Use: " ++ joinComma cfg.allowed_extensions)),
          false, false, false, none, []⟩) ∧
    (pyLower (pySuffix (file.filename.getD "unknown")) ∈ cfg.allowed_extensions →
      file.content_type.getD "image/jpeg" ∉ cfg.allowed_mime_types →
      critique_artwork cfg file genCall stor =
        ⟨.raised (.httpException 400
            ("MIME type not allowed. Use: " ++ joinComma cfg.allowed_mime_types)),
          false, false, false, none, []⟩) := by
  constructor
  · intro h
    simp [critique_artwork, validate_image_file, h, wrap_outer, PyExc.isHTTP]
  · intro h1 h2
    simp [critique_artwork, validate_image_file, h1, h2, wrap_outer, PyExc.isHTTP]

/-- C5 witness: `virus.exe` is rejected at the extension check, and
`photo.jpg` declared as `text/html` is rejected at the MIME check, both
before reading the content or invoking the generator. -/
theorem c5_witness :
    (critique_artwork defaultUploadConfig
        ⟨some "virus.exe", some "image/jpeg", [1]⟩ (.invoked (.ok sampleResponse))
        (fun _ => .ok "0") =
      ⟨.raised (.httpException 400
          ("Extension not allowed. Use: "
            ++ joinComma defaultUploadConfig.allowed_extensions)),
        false, false, false, none, []⟩) ∧
    (critique_artwork defaultUploadConfig
        ⟨some "photo.jpg", some "text/html", [1]⟩ (.invoked (.ok sampleResponse))
        (fun _ => .ok "0") =
      ⟨.raised (.httpException 400
          ("MIME type not allowed. Use: "
            ++ joinComma defaultUploadConfig.allowed_mime_types)),
        false, false, false, none, []⟩) :=
  ⟨(c5_invalid_extension_or_mime_rejected defaultUploadConfig
      ⟨some "virus.exe", some "image/jpeg", [1]⟩ (.invoked (.ok sampleResponse))
      (fun _ => .ok "0")).1 (by decide),
   (c5_invalid_extension_or_mime_rejected defaultUploadConfig
      ⟨some "photo.jpg", some "text/html", [1]⟩ (.invoked (.ok sampleResponse))
      (fun _ => .ok "0")).2 (by decide) (by decide)⟩

/-- C6: an empty payload is rejected with HTTP 400 as empty; a payload
strictly larger than `max_file_size_mb * 1024 * 1024` bytes is rejected
with HTTP 413 as too large; a payload whose length is strictly positive
and at most the maximum passes size validation. -/
theorem c6_size_validation (content : List Nat) (mb : Nat) :
    (content.length = 0 →
      validate_file_size content mb = .error (.httpException 400 "File is empty")) ∧
    (mb * 1024 * 1024 < content.length →
      validate_file_size content mb =
        .error (.httpException 413
          ("File too large (max " ++ toString mb ++ "MB)"))) ∧
    (0 < content.length → content.length ≤ mb * 1024 * 1024 →
      validate_file_size content mb = .ok ()) := by
  refine ⟨?_, ?_, ?_⟩
  · intro h
    simp only [validate_file_size]
    rw [if_neg (by omega), if_pos h]
  · intro h
    simp only [validate_file_size]
    rw [if_pos (by omega)]
  · intro h0 hle
    simp only [validate_file_size]
    rw [if_neg (by omega), if_neg (by omega)]

/-- C6 witness: the empty payload is rejected as empty, a 2-byte payload
against a 0 MB limit is rejected as too large, and a 1-byte payload
against a 10 MB limit passes. -/
theorem c6_witness :
    (validate_file_size [] 10 = .error (.httpException 400 "File is empty")) ∧
    (validate_file_size [1, 2] 0 =
      .error (.httpException 413 ("File too large (max " ++ toString 0 ++ "MB)"))) ∧
    (validate_file_size [1] 10 = .ok ()) :=
  ⟨(c6_size_validation [] 10).1 (by decide),
   (c6_size_validation [1, 2] 0).2.1 (by decide),
   (c6_size_validation [1] 10).2.2 (by decide) (by decide)⟩

/-- C9: as the claim describes it, `search_similar_critiques` never
embeds the query and never issues the bounded nearest-neighbor search: for
every embedding function, search backend, query text and limit it raises
`AttributeError`, because the body calls `.tolist()` directly on the
generator object returned by `embed` (the same call that `save_critique`
first wraps in `list(...)`). -/
theorem c9_search_always_raises_attribute_error
    (embedFn : String → List NdArray)
    (searchFn : List Int → Nat → List ScoredPoint)
    (query_text : String) (limit : Nat) :
    search_similar_critiques embedFn searchFn query_text limit =
      .error (.attributeError "generator object has no attribute tolist") := rfl

/-- C10: an upload whose file object carries no filename is given the
literal name `unknown`, whose extension suffix is empty; the empty suffix
is not in the default allowed-extension set, so the request is rejected
with HTTP 400 naming the allowed set, before the content is read, the
generator invoked, or storage touched. -/
theorem c10_nameless_upload_rejected
    (content_type : Option String) (content : List Nat) (genCall : GenCall)
    (stor : String → Except PyExc String) :
    pySuffix "unknown" = "" ∧
    critique_artwork defaultUploadConfig ⟨none, content_type, content⟩ genCall stor =
      ⟨.raised (.httpException 400
          ("Extension not allowed. Use: "
            ++ joinComma defaultUploadConfig.allowed_extensions)),
        false, false, false, none, []⟩ :=
  ⟨rfl, rfl⟩

/-- C1: the claim fails on the code.  For a fully valid upload
(`art.jpg`, `image/jpeg`, non-empty content within the size limit) the
wired endpoint never enters the Critique Generator and never returns 200:
the call site passes the keyword argument `user_text`, which
`AgentService.analyze_image` does not accept, so keyword binding raises
`TypeError` and the outer handler turns it into HTTP 500 — for every
generator body and every storage client. -/
theorem c1_valid_upload_always_500_generator_never_entered
    (genBody : Except PyExc AnalysisResponse)
    (stor : String → Except PyExc String) :
    critique_artwork_endpoint defaultUploadConfig
      ⟨some "art.jpg", some "image/jpeg", [137]⟩ genBody stor =
    ⟨.raised (.httpException 500
        ("Error analyzing image: "
          ++ "analyze_image() got an unexpected keyword argument user_text")),
      true, false, false, none, []⟩ := rfl

/-- C2: the claim fails on the code.  With a generator that succeeds with
a valid critique and a storage client that raises `ConnectionError`, the
handler logs the warning but the `return result` statement sits in the
storage `try`'s `else:` clause, so the handler falls through and returns
`None` instead of the critique body: the caller does not receive the
valid, unchanged critique. -/
theorem c2_storage_connectivity_error_loses_critique_body :
    critique_artwork defaultUploadConfig
        ⟨some "art.jpg", some "image/jpeg", [137]⟩
        (.invoked (.ok sampleResponse))
        (fun _ => .error (.connectionError "Qdrant connection refused")) =
      ⟨.returned none, true, true, true, some "art.jpg",
        ["Failed to store critique in vector database: "
          ++ "Qdrant connection refused. Continuing with analysis response."]⟩ ∧
    (critique_artwork defaultUploadConfig
        ⟨some "art.jpg", some "image/jpeg", [137]⟩
        (.invoked (.ok sampleResponse))
        (fun _ => .error (.connectionError "Qdrant connection refused"))).outcome ≠
      HandlerOutcome.returned (some sampleResponse) := by
  exact ⟨rfl, by decide⟩

/-- C3: the claim fails on the code.  A vector-database fault
(`UnexpectedResponse`) inside `save_critique` is wrapped as
`RuntimeError('Failed to save critique to Qdrant: ...')`, which the
endpoint's `except (ConnectionError, TimeoutError, OSError)` clause does
not catch: it propagates to the outer handler and surfaces to the caller
as HTTP 500, with no warning logged, aborting the critique response. -/
theorem c3_qdrant_fault_surfaces_as_500 :
    critique_artwork defaultUploadConfig
        ⟨some "art.jpg", some "image/jpeg", [137]⟩
        (.invoked (.ok sampleResponse))
        (storage_call (fun _ => [⟨[3, 1, 4]⟩]) (fun _ => 42)
          (.error (.unexpectedResponse "service unavailable")) []
          (ArtCritique.fromAnalysisResponse sampleResponse
            "2026-10-12T12:00:00+00:00")) =
      ⟨.raised (.httpException 500
          ("Error analyzing image: "
            ++ "Failed to save critique to Qdrant: service unavailable")),
        true, true, true, some "art.jpg", []⟩ := rfl

/-- C8: when validation passes and the Critique Generator body runs and
fails with any non-HTTP exception, the storage client is never invoked
and the caller receives HTTP 500 wrapping the failure. -/
theorem c8_generator_failure_skips_storage_returns_500
    (cfg : UploadConfig) (file : UploadedFile)
    (stor : String → Except PyExc String) (e : PyExc)
    (hext : pyLower (pySuffix (file.filename.getD "unknown")) ∈ cfg.allowed_extensions)
    (hmime : file.content_type.getD "image/jpeg" ∈ cfg.allowed_mime_types)
    (hpos : 0 < file.content.length)
    (hmax : file.content.length ≤ cfg.max_file_size_mb * 1024 * 1024)
    (hhttp : e.isHTTP = false) :
    critique_artwork cfg file (.invoked (.error e)) stor =
      ⟨.raised (.httpException 500 ("Error analyzing image: " ++ e.describe)),
        true, true, false, none, []⟩ := by
  have h1 : ¬ (file.content.length > cfg.max_file_size_mb * 1024 * 1024) := by omega
  have h2 : ¬ (file.content.length = 0) := by omega
  simp [critique_artwork, validate_image_file, validate_file_size, hext, hmime,
    h1, h2, GenCall.outcome, GenCall.entered, wrap_outer, hhttp]

/-- C8 witness: with a valid `art.jpg` upload and a generator body that
fails with the `ValueError` wrap that `analyze_image` produces, the
storage client is not invoked and the response is HTTP 500. -/
theorem c8_witness :
    critique_artwork defaultUploadConfig
        ⟨some "art.jpg", some "image/jpeg", [137]⟩
        (.invoked (.error (.valueError "Gemini image analysis error: boom")))
        (fun _ => .ok "0") =
      ⟨.raised (.httpException 500
          ("Error analyzing image: "
            ++ (PyExc.valueError "Gemini image analysis error: boom").describe)),
        true, true, false, none, []⟩ :=
  c8_generator_failure_skips_storage_returns_500 defaultUploadConfig
    ⟨some "art.jpg", some "image/jpeg", [137]⟩ (fun _ => .ok "0")
    (.valueError "Gemini image analysis error: boom")
    (by decide) (by decide) (by decide) (by decide) (by decide)

/-- Filtering an upserted collection for the upserted id leaves exactly
the new point: `upsert` first removes every point with that id. -/
theorem filter_upsert_self (st : List Point) (i : Nat) (v : List Int)
    (pl : Payload) :
    List.filter (fun q => q.id = i) (upsert st ⟨i, v, pl⟩) = [⟨i, v, pl⟩] := by
  unfold upsert
  induction st with
  | nil => simp
  | cons a l ih =>
    by_cases h : a.id = i
    · simp only [List.filter_cons]
      simp [h, ih]
    · simp only [List.filter_cons]
      simp [h, ih]

/-- C4: the stored point identifier is `hash(filename) % 10^8`, a function
of the filename alone under the process's fixed string hash; two
successive saves with the same filename both return that identifier, and
after the second save the collection holds exactly one record under it,
carrying the later critique's payload. -/
theorem c4_same_filename_last_write_wins
    (embedFn : String → List NdArray) (hashFn : String → Int)
    (st : List Point) (c1 c2 : ArtCritique) (f : String)
    (h1 : embedFn c1.get_text_for_embedding ≠ [])
    (h2 : embedFn c2.get_text_for_embedding ≠ []) :
    ∃ st1 st2,
      save_critique embedFn hashFn (.ok ()) st c1 f =
        .ok (st1, toString (point_id_of hashFn f)) ∧
      save_critique embedFn hashFn (.ok ()) st1 c2 f =
        .ok (st2, toString (point_id_of hashFn f)) ∧
      ∃ v, List.filter (fun p => p.id = point_id_of hashFn f) st2 =
        [⟨point_id_of hashFn f, v, payload_of c2 f⟩] := by
  rcases hl1 : embedFn c1.get_text_for_embedding with _ | ⟨a1, t1⟩
  · exact absurd hl1 h1
  rcases hl2 : embedFn c2.get_text_for_embedding with _ | ⟨a2, t2⟩
  · exact absurd hl2 h2
  refine ⟨upsert st ⟨point_id_of hashFn f, a1.tolist, payload_of c1 f⟩,
    upsert (upsert st ⟨point_id_of hashFn f, a1.tolist, payload_of c1 f⟩)
      ⟨point_id_of hashFn f, a2.tolist, payload_of c2 f⟩,
    ?_, ?_, a2.tolist, ?_⟩
  · simp [save_critique, hl1]
  · simp [save_critique, hl2]
  · exact filter_upsert_self _ _ _ _

/-- C4 witness: two concrete saves with filename `a.png` both return the
identifier of `a.png` and leave one surviving record with the second
critique's payload. -/
theorem c4_witness :
    ∃ st1 st2,
      save_critique (fun _ => [⟨[3, 1]⟩]) (fun s => (s.length : Int)) (.ok ()) []
        sampleCritique1 "a.png" =
        .ok (st1, toString (point_id_of (fun s => (s.length : Int)) "a.png")) ∧
      save_critique (fun _ => [⟨[3, 1]⟩]) (fun s => (s.length : Int)) (.ok ()) st1
        sampleCritique2 "a.png" =
        .ok (st2, toString (point_id_of (fun s => (s.length : Int)) "a.png")) ∧
      ∃ v, List.filter
          (fun p => p.id = point_id_of (fun s => (s.length : Int)) "a.png") st2 =
        [⟨point_id_of (fun s => (s.length : Int)) "a.png", v,
          payload_of sampleCritique2 "a.png"⟩] :=
  c4_same_filename_last_write_wins (fun _ => [⟨[3, 1]⟩])
    (fun s => (s.length : Int)) [] sampleCritique1 sampleCritique2 "a.png"
    (by simp) (by simp)

/-- C7: a raw model response accepted by `AnalysisResponse` validation is
returned with its fields unchanged (never clamped or coerced) and
satisfies every bound (score in [1,10], summary 10-500 chars, advice
20-500 chars, 0-10 technical errors); a response violating any bound is
rejected by validation, and `analyze_image` then reports the generation
error as a `ValueError` preserving the underlying cause rather than
succeeding with an adjusted value. -/
theorem c7_critique_bounds_enforced_not_clamped
    (s : String) (sc : Int) (te : List String) (adv : String) :
    (∀ r, mkAnalysisResponse s sc te adv = .ok r →
      r.summary = s ∧ r.score = sc ∧ r.technical_errors = te ∧
      r.constructive_advice = adv ∧
      1 ≤ r.score ∧ r.score ≤ 10 ∧
      10 ≤ r.summary.length ∧ r.summary.length ≤ 500 ∧
      20 ≤ r.constructive_advice.length ∧ r.constructive_advice.length ≤ 500 ∧
      r.technical_errors.length ≤ 10) ∧
    ((s.length < 10 ∨ 500 < s.length ∨ sc < 1 ∨ 10 < sc ∨
        10 < te.length ∨ adv.length < 20 ∨ 500 < adv.length) →
      ∃ m, mkAnalysisResponse s sc te adv = .error (.validationError m)) ∧
    (∀ e, mkAnalysisResponse s sc te adv = .error e →
      analyze_image (.rawDict s sc te adv) =
        .error (.valueError ("Gemini image analysis error: " ++ e.describe))) := by
  refine ⟨?_, ?_, ?_⟩
  · intro r hr
    simp only [mkAnalysisResponse] at hr
    split_ifs at hr with hA hB hC hD
    cases hr
    push_neg at hA hB hD
    exact ⟨rfl, rfl, rfl, rfl, hB.1, hB.2, hA.1, hA.2, hD.1, hD.2,
      le_of_not_lt hC⟩
  · intro hviol
    simp only [mkAnalysisResponse]
    split_ifs with hA hB hC hD
    · exact ⟨_, rfl⟩
    · exact ⟨_, rfl⟩
    · exact ⟨_, rfl⟩
    · exact ⟨_, rfl⟩
    · push_neg at hA hB hD
      exact absurd hviol (by push_neg; omega)
  · intro e he
    simp [analyze_image, he]

/-- C7 witness: the sample critique's fields pass validation unchanged and
satisfy every bound; a 5-character summary is rejected by validation, and
`analyze_image` reports that rejection as a generation error preserving
the cause. -/
theorem c7_witness :
    (sampleResponse.summary = "A solid landscape study with confident values." ∧
      sampleResponse.score = 7 ∧
      sampleResponse.technical_errors = ["Horizon line drifts to the left"] ∧
      sampleResponse.constructive_advice =
        "Practice one-point perspective studies with a ruler before the next piece." ∧
      1 ≤ sampleResponse.score ∧ sampleResponse.score ≤ 10 ∧
      10 ≤ sampleResponse.summary.length ∧ sampleResponse.summary.length ≤ 500 ∧
      20 ≤ sampleResponse.constructive_advice.length ∧
      sampleResponse.constructive_advice.length ≤ 500 ∧
      sampleResponse.technical_errors.length ≤ 10) ∧
    (∃ m, mkAnalysisResponse "Nice." 7 []
        "Practice one-point perspective studies with a ruler." =
      .error (.validationError m)) ∧
    (analyze_image (.rawDict "Nice." 7 []
        "Practice one-point perspective studies with a ruler.") =
      .error (.valueError ("Gemini image analysis error: "
        ++ (PyExc.validationError "summary: length out of range 10..500").describe))) :=
  ⟨(c7_critique_bounds_enforced_not_clamped
      "A solid landscape study with confident values." 7
      ["Horizon line drifts to the left"]
      "Practice one-point perspective studies with a ruler before the next piece.").1
      sampleResponse rfl,
   (c7_critique_bounds_enforced_not_clamped "Nice." 7 []
      "Practice one-point perspective studies with a ruler.").2.1 (by decide),
   (c7_critique_bounds_enforced_not_clamped "Nice." 7 []
      "Practice one-point perspective studies with a ruler.").2.2
      (.validationError "summary: length out of range 10..500") rfl⟩
